import Mathlib

/-!
Shallow embedding of the coordination engine of `src/src/travel_adk_coordinator.py`
(class `TravelADKCoordinator`), the subject of the specification.  Text is
modelled as `List Char`; Python `str.lower`, `str.count` (non-overlapping
substring count), the `in` substring test, `str.split('. ')` and `str.strip`
are embedded below.  The three specialized agents are identified by their
registry keys (`"flight"`, `"hotel"`, `"activity"`); the registry itself is a
list of keys in insertion order, mirroring the `dict` `self.agents`.
-/

namespace TravelADK

/-- The registry keys of the three ADK agents that
`TravelADKCoordinator._initialize_agents` tries to construct, in order. -/
inductive AgentKey
  | flight
  | hotel
  | activity
deriving DecidableEq

/-- Iteration order of the `agent_keywords` table (Python dict insertion
order: flight, hotel, activity). -/
def agentOrder : List AgentKey := [.flight, .hotel, .activity]

/-- The registry when all three agents initialize successfully. -/
def fullConfig : List AgentKey := [.flight, .hotel, .activity]

/-- Python `str.lower` restricted to the ASCII range, which is all the
keyword tables use (`Char.toLower` lower-cases exactly ASCII letters). -/
def toLowerStr (s : List Char) : List Char := s.map Char.toLower

/-- Left-to-right scan for `countOccs`: `skip` positions still covered by the
previous match are not candidate starting points (non-overlapping matches). -/
def countOccsGo (pat : List Char) : List Char → Nat → Nat
  | [], _ => 0
  | c :: rest, skip =>
    if 0 < skip then countOccsGo pat rest (skip - 1)
    else if pat.isPrefixOf (c :: rest) then
      1 + countOccsGo pat rest (pat.length - 1)
    else
      countOccsGo pat rest 0

/-- Python `str.count pat`: number of non-overlapping occurrences of `pat`,
scanning left to right and skipping past each match.  (Never called with an
empty pattern by the coordinator.) -/
def countOccs (hay pat : List Char) : Nat :=
  countOccsGo pat hay 0

/-- Python `pat in hay`: substring test. -/
def containsSub (hay pat : List Char) : Bool :=
  match hay with
  | [] => pat.isEmpty
  | _ :: rest => pat.isPrefixOf hay || containsSub rest pat

/-- `agent_keywords[...]["high"]` from `_determine_agents_needed`. -/
def highKeywords : AgentKey → List (List Char)
  | .flight => ["flight".data, "fly".data, "airline".data, "airport".data,
      "departure".data, "arrival".data, "ticket".data, "boarding".data]
  | .hotel => ["hotel".data, "accommodation".data, "stay".data, "room".data,
      "lodge".data, "resort".data, "check-in".data, "booking".data]
  | .activity => ["activity".data, "restaurant".data, "food".data, "tour".data,
      "attraction".data, "museum".data, "experience".data, "sightseeing".data]

/-- `agent_keywords[...]["medium"]` from `_determine_agents_needed`. -/
def mediumKeywords : AgentKey → List (List Char)
  | .flight => ["travel".data, "trip".data, "journey".data, "aviation".data]
  | .hotel => ["sleep".data, "night".data, "bed".data, "suite".data]
  | .activity => ["eat".data, "visit".data, "see".data, "do".data,
      "entertainment".data, "culture".data]

/-- The per-agent score of `_determine_agents_needed`: each high-salience
keyword occurrence counts 3, each medium-salience occurrence counts 1,
occurrences being Python `message_lower.count(word)`. -/
def agentScore (a : AgentKey) (msgLower : List Char) : Nat :=
  ((highKeywords a).map (fun w => countOccs msgLower w * 3)).sum
    + ((mediumKeywords a).map (fun w => countOccs msgLower w * 1)).sum

/-- The `agent_scores` dict: `(name, score)` pairs with positive score, in
table iteration order. -/
def agentScores (msgLower : List Char) : List (AgentKey × Nat) :=
  (agentOrder.map (fun a => (a, agentScore a msgLower))).filter
    (fun p => decide (0 < p.2))

/-- Python `max` over an iterable (with `key` projecting to the score): the
fold keeps the current best and replaces it only on a strictly greater
score, hence returns the first element attaining the maximum. -/
def firstMax (l : List (AgentKey × Nat)) : Option (AgentKey × Nat) :=
  l.foldl
    (fun acc p =>
      match acc with
      | none => some p
      | some q => if p.2 > q.2 then some p else some q)
    none

/-- `comprehensive_keywords` of `_determine_agents_needed`. -/
def comprehensiveKeywords : List (List Char) :=
  ["plan".data, "trip".data, "vacation".data, "travel".data, "visit".data,
    "itinerary".data, "complete".data, "comprehensive".data]

/-- `general_keywords` of the smart fallback in `_determine_agents_needed`. -/
def generalKeywords : List (List Char) :=
  ["recommend".data, "suggest".data, "best".data, "good".data, "help".data,
    "advice".data]

/-- `any(word in message_lower for word in comprehensive_keywords)`. -/
def anyComprehensive (msgLower : List Char) : Bool :=
  comprehensiveKeywords.any (fun w => containsSub msgLower w)

/-- `any(word in message_lower for word in general_keywords)`. -/
def anyGeneral (msgLower : List Char) : Bool :=
  generalKeywords.any (fun w => containsSub msgLower w)

/-- The score-driven part of `_determine_agents_needed` (lines 384-396): a
single winner when the maximal score is at least 3, otherwise every
positively scoring configured agent. -/
def scoreSelected (cfg : List AgentKey) (msgLower : List Char) : List AgentKey :=
  match firstMax (agentScores msgLower) with
  | none => []
  | some (best, maxScore) =>
    if 3 ≤ maxScore then
      if best ∈ cfg then [best] else []
    else
      ((agentScores msgLower).map Prod.fst).filter (fun a => decide (a ∈ cfg))

/-- `self.agents.get("activity", list(self.agents.values())[0])` wrapped in a
one-element list; the registry is never empty (construction raises
`RuntimeError` otherwise), so the empty case below is unreachable. -/
def fallbackDefault (cfg : List AgentKey) : List AgentKey :=
  if AgentKey.activity ∈ cfg then [.activity]
  else
    match cfg with
    | [] => []
    | c :: _ => [c]

/-- `TravelADKCoordinator._determine_agents_needed`: score-based selection,
overridden by the comprehensive-keyword rule, then the generic-advice
fallback; may return the empty list. -/
def determineAgentsNeeded (cfg : List AgentKey) (message : List Char) :
    List AgentKey :=
  if anyComprehensive (toLowerStr message) then cfg
  else if (scoreSelected cfg (toLowerStr message)).isEmpty then
    if anyGeneral (toLowerStr message) then fallbackDefault cfg else []
  else
    scoreSelected cfg (toLowerStr message)

/-- The agent set a coordination round actually uses
(`_coordinate_conversation` lines 328-332): the router's choice, or every
configured agent when the router chose none. -/
def involvedAgents (cfg : List AgentKey) (message : List Char) :
    List AgentKey :=
  if (determineAgentsNeeded cfg message).isEmpty then cfg
  else determineAgentsNeeded cfg message

/-! ## Agent responses and behaviors

The coordinator consumes each agent only through `start_conversation` /
`continue_conversation`, which return Python dicts.  Only the keys the
coordinator inspects are modelled: `"response"`, `"error"` and
`"function_calls"` (for the latter only the length of the list matters, so
entries are modelled by their function names).  An invocation submitted to
the worker pool either returns a dict, raises, or fails to complete before
the fan-in deadline (`as_completed(..., timeout=30)`); the last case is the
`hang` outcome. -/

/-- The keys of an agent response dict that the coordinator reads. -/
structure AgentResp where
  response : Option (List Char) := none
  error : Option (List Char) := none
  functionCalls : Option (List (List Char)) := none
deriving DecidableEq

/-- Which conversation method of an agent is invoked. -/
inductive CallMode
  | start
  | cont
deriving DecidableEq

/-- Result of one agent invocation as observed by the executor. -/
inductive Outcome
  | ok (r : AgentResp)
  | exc (reason : List Char)
  | hang
deriving DecidableEq

/-- `Outcome.isOk o` holds when the invocation returned a dict (the ADK base
agent catches its own exceptions and returns an error dict, so its
invocations are always of this kind). -/
def Outcome.isOk : Outcome → Bool
  | .ok _ => true
  | _ => false

/-- A conversation identifier (opaque string). -/
abbrev ConvId := List Char

/-- An agent's observable behavior: what one invocation with the given
message, conversation id, and conversation method does. -/
abbrev Behavior := AgentKey → List Char → ConvId → CallMode → Outcome

/-! ## Conversation store (`self.coordinator_memory`) -/

/-- One record of `coordinator_memory`.  The single-agent path stores only
`"primary_agent"`; the multi-agent path stores `"involved_agents"`,
`"last_update"` and `"message_count"`.  Absent keys are `none`. -/
structure MemRecord where
  primaryAgent : Option AgentKey := none
  involvedAgents : Option (List AgentKey) := none
  lastUpdate : Option Nat := none
  messageCount : Option Nat := none
deriving DecidableEq

/-- The conversation store, a dict modelled as an association list where the
most recent write for a key comes first. -/
abbrev Memory := List (ConvId × MemRecord)

/-- Dict lookup. -/
def memLookup (m : Memory) (k : ConvId) : Option MemRecord :=
  (m.find? (fun p => decide (p.1 = k))).map Prod.snd

/-- Dict write (`self.coordinator_memory[conversation_id] = ...`). -/
def memInsert (m : Memory) (k : ConvId) (v : MemRecord) : Memory :=
  (k, v) :: m

/-- The `"involved_agents"` entry stored for a conversation, when present. -/
def storedInvolved (m : Memory) (k : ConvId) : Option (List AgentKey) :=
  (memLookup m k).bind (fun r => r.involvedAgents)

/-- The `"message_count"` entry stored for a conversation, when present. -/
def storedCount (m : Memory) (k : ConvId) : Option Nat :=
  (memLookup m k).bind (fun r => r.messageCount)

/-- The `"last_update"` entry stored for a conversation, when present. -/
def storedLastUpdate (m : Memory) (k : ConvId) : Option Nat :=
  (memLookup m k).bind (fun r => r.lastUpdate)

/-! ## Safe per-agent query (`_query_agent_safely`, lines 465-482) -/

/-- The conversation method `_query_agent_safely` picks: `continue` when the
conversation id has a record whose `"involved_agents"` list (defaulting to
`[]`) mentions this agent, `start` otherwise. -/
def queryCallMode (memory : Memory) (convId : ConvId) (a : AgentKey) :
    CallMode :=
  match memLookup memory convId with
  | some rec => if a ∈ rec.involvedAgents.getD [] then .cont else .start
  | none => .start

/-- `_query_agent_safely`: invoke the agent with the mode chosen above; a
raised exception is caught and turned into an error dict.  `none` models an
invocation that does not complete before the round's deadline (the method
has no internal timeout, despite its docstring). -/
def queryAgentSafely (beh : Behavior) (memory : Memory) (a : AgentKey)
    (message : List Char) (convId : ConvId) : Option AgentResp :=
  match beh a message convId (queryCallMode memory convId a) with
  | .ok r => some r
  | .exc reason => some { response := none, error := some reason }
  | .hang => none

/-! ## Response synthesis (`_extract_key_info`, lines 523-565) -/

/-- Python `text.split('. ')`: split on every non-overlapping occurrence of
the two-character separator, keeping empty pieces. -/
def splitOnDotSpace : List Char → List (List Char)
  | [] => [[]]
  | '.' :: ' ' :: rest => [] :: splitOnDotSpace rest
  | c :: rest =>
    match splitOnDotSpace rest with
    | [] => [[c]]
    | s :: ss => (c :: s) :: ss

/-- Whitespace for Python `str.strip`. -/
def isPySpace (c : Char) : Bool :=
  c = ' ' || c = '\t' || c = '\n' || c = '\r' || c = '\x0b' || c = '\x0c'

/-- Python `str.strip`. -/
def pyStrip (s : List Char) : List Char :=
  ((s.dropWhile isPySpace).reverse.dropWhile isPySpace).reverse

/-- The agent-type label the summarizer derives from an agent name
(`agent_name.replace("-adk-agent", "").replace("-", " ").title()`); agent
names follow the `<key>-adk-agent` scheme of the ADK base agents. -/
def agentTitle : AgentKey → List Char
  | .flight => "Flight".data
  | .hotel => "Hotel".data
  | .activity => "Activity".data

/-- The `priority_keywords` table of `_extract_key_info`, keyed by the
agent-type label, defaulting to the empty list. -/
def priorityKeywords (agentType : List Char) : List (List Char) :=
  if agentType = "Flight".data then
    ["flight".data, "airline".data, "price".data, "$".data,
      "departure".data, "arrival".data]
  else if agentType = "Hotel".data then
    ["hotel".data, "room".data, "night".data, "$".data, "location".data,
      "amenities".data]
  else if agentType = "Activity".data then
    ["activity".data, "restaurant".data, "experience".data,
      "recommendation".data]
  else []

/-- Sentence score: how many priority keywords occur (case-insensitively)
somewhere in the sentence. -/
def sentenceScore (keywords : List (List Char)) (sentence : List Char) :
    Nat :=
  (keywords.filter
    (fun k => containsSub (toLowerStr sentence) (toLowerStr k))).length

/-- Insert into a score-descending list after every entry of greater or
equal score, so that a left-to-right fold reproduces Python's stable
`sort(key=..., reverse=True)`. -/
def insertDescStable (p : List Char × Nat) :
    List (List Char × Nat) → List (List Char × Nat)
  | [] => [p]
  | q :: rest =>
    if p.2 ≤ q.2 then q :: insertDescStable p rest else p :: q :: rest

/-- Python's stable descending sort by score. -/
def stableSortDesc (l : List (List Char × Nat)) : List (List Char × Nat) :=
  l.foldl (fun acc p => insertDescStable p acc) []

/-- The greedy selection loop of `_extract_key_info`: take sentences in
order while the running character count stays within 180, stopping at the
first sentence that does not fit; returns the parts and the final count. -/
def greedyTake (cnt : Nat) :
    List (List Char × Nat) → List (List Char) × Nat
  | [] => ([], cnt)
  | (s, _) :: rest =>
    if cnt + s.length ≤ 180 then
      let r := greedyTake (cnt + s.length) rest
      (s :: r.1, r.2)
    else
      ([], cnt)

/-- Python `sep.join parts`. -/
def joinSep (sep : List Char) : List (List Char) → List Char
  | [] => []
  | [x] => x
  | x :: xs => x ++ sep ++ joinSep sep xs

/-- `TravelADKCoordinator._extract_key_info`: texts of at most 200
characters are returned unchanged; longer texts are split into sentences,
scored, stably sorted by descending score, and greedily concatenated under a
180-character budget (with a fallback to the first 180 characters). -/
def extractKeyInfo (text agentType : List Char) : List Char :=
  if text.length ≤ 200 then text
  else
    let keywords := priorityKeywords agentType
    let scored :=
      (splitOnDotSpace text).map
        (fun s => (pyStrip s, sentenceScore keywords s))
    let taken := greedyTake 0 (stableSortDesc scored)
    if ¬ taken.1.isEmpty then
      joinSep ". ".data taken.1
        ++ (if 150 < taken.2 then "...".data else [])
    else
      text.take 180 ++ (if 180 < text.length then "...".data else [])

/-! ## Summary and quality (`_generate_coordinator_summary` lines 484-521,
`_assess_coordination_quality` lines 567-591) -/

/-- The summarizer's success test: the `"response"` key is present and its
value truthy (a non-empty string). -/
def isSuccessResp (r : AgentResp) : Bool :=
  match r.response with
  | some t => ¬ t.isEmpty
  | none => false

/-- The fallback sentence `_generate_coordinator_summary` returns when no
agent produced a usable response. -/
def genericCoordSummary : List Char :=
  "Multiple travel agents coordinated to provide comprehensive assistance.".data

/-- `TravelADKCoordinator._generate_coordinator_summary` over the
`agent_responses` mapping (entries in fan-in completion order; the claims
below do not depend on that order). -/
def generateCoordinatorSummary (responses : List (AgentKey × AgentResp)) :
    List Char :=
  let succ := responses.filter (fun p => isSuccessResp p.2)
  let summaries :=
    succ.map
      (fun p =>
        "**".data ++ agentTitle p.1 ++ "**: ".data
          ++ extractKeyInfo (p.2.response.getD []) (agentTitle p.1))
  let failed :=
    (responses.filter
      (fun p => ¬ isSuccessResp p.2 && p.2.error.isSome)).map
        (fun p => agentTitle p.1)
  if ¬ summaries.isEmpty then
    let main := joinSep " | ".data summaries
    let coordinationNote :=
      if 1 < succ.length then
        " (Coordinated response from ".data ++ (Nat.repr succ.length).data
          ++ " specialized agents)".data
      else []
    let withFailures :=
      if ¬ failed.isEmpty then
        main ++ " Note: ".data ++ joinSep ", ".data failed
          ++ " agent(s) encountered issues.".data
      else main
    withFailures ++ coordinationNote
  else genericCoordSummary

/-- The `coordination_effectiveness` tiers. -/
inductive Tier
  | high
  | medium
  | low
deriving DecidableEq

/-- An exact non-negative fraction (numerator over denominator, not
necessarily reduced).  The coordinator's numeric results (success rates,
budget allocations) are non-negative, so this suffices to model them
exactly; `Nat` arithmetic keeps every comparison kernel-computable. -/
structure Frac where
  num : Nat
  den : Nat
deriving DecidableEq

/-- Exact order on fractions (cross multiplication; denominators are
positive wherever the model builds a fraction). -/
def Frac.ble (a b : Frac) : Bool := a.num * b.den ≤ b.num * a.den

/-- Exact strict order on fractions. -/
def Frac.blt (a b : Frac) : Bool := a.num * b.den < b.num * a.den

/-- Exact product of fractions. -/
def Frac.mul (a b : Frac) : Frac := ⟨a.num * b.num, a.den * b.den⟩

/-- `_assess_coordination_quality` result.  The success rate is kept as the
exact fraction; the source computes it in binary floating point and formats
a percent string from it, but with at most three agents the two agree on
every comparison made (the possible rates are multiples of 100/3, 50 and
100, none of which straddles a threshold within double rounding error). -/
structure QualityAssessment where
  successRate : Frac
  successfulAgents : Nat
  failedAgents : Nat
  totalFunctionCalls : Nat
  effectiveness : Tier
deriving DecidableEq

/-- `TravelADKCoordinator._assess_coordination_quality`: an agent counts as
successful when its dict has a `"response"` key (regardless of truthiness);
function calls are summed over dicts carrying a `"function_calls"` key. -/
def assessCoordinationQuality (responses : List (AgentKey × AgentResp)) :
    QualityAssessment :=
  let total := responses.length
  let successful :=
    (responses.filter (fun p => p.2.response.isSome)).length
  let fnCalls :=
    (responses.map (fun p => (p.2.functionCalls.getD []).length)).sum
  let score : Frac := if 0 < total then ⟨successful * 100, total⟩ else ⟨0, 1⟩
  { successRate := score
    successfulAgents := successful
    failedAgents := total - successful
    totalFunctionCalls := fnCalls
    effectiveness :=
      if Frac.ble ⟨80, 1⟩ score then .high
      else if Frac.ble ⟨50, 1⟩ score then .medium
      else .low }

/-! ## Coordination rounds (`_coordinate_conversation` lines 321-348,
`_multi_agent_conversation` lines 412-463) -/

/-- The multi-agent path's coordinated response (its constant fields
`"coordinator"`, `"multi_agent_response"` and the wall-clock timestamp are
omitted). -/
structure CoordinatedResponse where
  conversationId : ConvId
  agentResponses : List (AgentKey × AgentResp)
  summary : List Char
  quality : QualityAssessment
deriving DecidableEq

/-- What one call of `_coordinate_conversation` does, as seen by the HTTP
layer: the single-agent path returns the agent's dict unchanged
(`singleResp`); the multi-agent path returns a coordinated response; an
uncaught exception propagates (`raised`); an expired fan-in deadline lets
`concurrent.futures.TimeoutError` escape (`timedOut`); a single-agent call
that never returns blocks the request forever (`blocked`), since that path
has no deadline at all. -/
inductive CoordOutcome
  | singleResp (r : AgentResp)
  | coordinated (c : CoordinatedResponse)
  | raised (reason : List Char)
  | timedOut
  | blocked
deriving DecidableEq

/-- `TravelADKCoordinator._multi_agent_conversation`: query every selected
agent through `_query_agent_safely` against the pre-round store; if any
invocation outlasts the deadline, `as_completed` raises `TimeoutError`
before the store is updated and the collected results are discarded;
otherwise store the round's agent list (replacing any previous
`"involved_agents"`), the timestamp, and the incremented message count, and
assemble the coordinated response.  The fan-out step is named so the
properties below can speak about it. -/
def fanOutResults (beh : Behavior) (memory : Memory) (message : List Char)
    (convId : ConvId) (agents : List AgentKey) :
    List (AgentKey × Option AgentResp) :=
  agents.map (fun a => (a, queryAgentSafely beh memory a message convId))

/-- The fan-in step: keep the keyed dicts of the invocations that
completed. -/
def collectResponses (results : List (AgentKey × Option AgentResp)) :
    List (AgentKey × AgentResp) :=
  results.filterMap (fun p => p.2.map (fun r => (p.1, r)))

/-- The core of the multi-agent path: fan out, fan in, update the store,
assemble the coordinated response (see the doc comment above
`fanOutResults`). -/
def multiAgentConversation (beh : Behavior) (memory : Memory)
    (message : List Char) (convId : ConvId) (agents : List AgentKey)
    (now : Nat) : CoordOutcome × Memory :=
  let results := fanOutResults beh memory message convId agents
  if results.any (fun p => p.2.isNone) then
    (.timedOut, memory)
  else
    let responses := collectResponses results
    let memory2 :=
      memInsert memory convId
        { involvedAgents := some agents
          lastUpdate := some now
          messageCount := some (((storedCount memory convId).getD 0) + 1) }
    (.coordinated
      { conversationId := convId
        agentResponses := responses
        summary := generateCoordinatorSummary responses
        quality := assessCoordinationQuality responses }, memory2)

/-- `TravelADKCoordinator._coordinate_conversation`: route the message; a
single selected agent is called directly (continuing whenever the
conversation id has any stored record, and recording only a
`"primary_agent"` entry on a first turn); two or more selected agents go
through the multi-agent path.  An empty registry would make the multi-agent
path construct a zero-worker pool, which raises `ValueError`; the
constructor guarantees a non-empty registry. -/
def coordinateConversation (beh : Behavior) (cfg : List AgentKey)
    (memory : Memory) (message : List Char) (convId : ConvId) (now : Nat) :
    CoordOutcome × Memory :=
  match involvedAgents cfg message with
  | [] => (.raised "ValueError".data, memory)
  | [a] =>
    match memLookup memory convId with
    | some _ =>
      match beh a message convId .cont with
      | .ok r => (.singleResp r, memory)
      | .exc e => (.raised e, memory)
      | .hang => (.blocked, memory)
    | none =>
      match beh a message convId .start with
      | .ok r =>
        (.singleResp r,
          memInsert memory convId { primaryAgent := some a })
      | .exc e => (.raised e, memory)
      | .hang => (.blocked, memory)
  | agents =>
    multiAgentConversation beh memory message convId agents now

/-- The agent-name → result mapping of a round's outcome, when the round
produced one (only the multi-agent path builds such a mapping). -/
def coordResponsesMap : CoordOutcome → Option (List (AgentKey × AgentResp))
  | .coordinated c => some c.agentResponses
  | _ => none

/-- The synthesized summary of a round's outcome, when present. -/
def coordSummary : CoordOutcome → Option (List Char)
  | .coordinated c => some c.summary
  | _ => none

/-- The effectiveness tier of a round's outcome, when present. -/
def coordTier : CoordOutcome → Option Tier
  | .coordinated c => some c.quality.effectiveness
  | _ => none

/-- The successful-agent count of a round's outcome, when present. -/
def coordSuccessCount : CoordOutcome → Option Nat
  | .coordinated c => some c.quality.successfulAgents
  | _ => none

/-- A round outcome that was actually returned to the caller rather than
thrown or stuck. -/
def CoordOutcome.isReturned : CoordOutcome → Bool
  | .singleResp _ => true
  | .coordinated _ => true
  | _ => false

/-! ## Plan budget arithmetic (`_create_specialized_queries` lines 647-656,
`_analyze_budget_breakdown` lines 804-813)

The `/plan` route converts the budget with `float(...)` and the allocations
are computed in binary64 floating point (`int(budget * 0.4)` and so on),
then `hotel_per_night` by integer floor division.  A `Frac` stands for the
exact value of a binary64 number: `fl64F` rounds the exact product of two
such values to the nearest binary64 (ties to even), which is precisely what
the hardware multiplication does for operands in the normal range; the
model covers values `≥ 1`, amply containing every product a validated
budget (`budget ≥ 100`, so every split is `≥ 25`) can produce. -/

/-- `⌊log2 n⌋` for `1 ≤ n`, by structural recursion on a fuel bound. -/
def natLog2Go : Nat → Nat → Nat
  | _, 0 => 0
  | n, fuel + 1 => if n < 2 then 0 else natLog2Go (n / 2) fuel + 1

/-- `⌊log2 n⌋` for `1 ≤ n` (0 below 2). -/
def natLog2 (n : Nat) : Nat := natLog2Go n n

/-- Round a non-negative fraction to the nearest natural number, ties to
even. -/
def rneF (q : Frac) : Nat :=
  let n := q.num / q.den
  let r := q.num % q.den
  if 2 * r < q.den then n
  else if q.den < 2 * r then n + 1
  else if n % 2 = 0 then n else n + 1

/-- Round a fraction `≥ 1` to the exact value of the nearest binary64
number (round to nearest, ties to even): scale into `[2^52, 2^53)`, round
the mantissa, scale back.  Values below 1 are returned unchanged (never
reached in the modelled domain). -/
def fl64F (q : Frac) : Frac :=
  if q.num < q.den then q
  else
    let e := natLog2 (q.num / q.den)
    ⟨rneF ⟨q.num * 2 ^ 52, q.den * 2 ^ e⟩ * 2 ^ e, 2 ^ 52⟩

/-- The exact value of the binary64 number nearest the source literal
`0.4`. -/
def lit04 : Frac := ⟨3602879701896397, 2 ^ 53⟩

/-- The exact value of the binary64 number nearest the source literal
`0.35`. -/
def lit035 : Frac := ⟨6305039478318694, 2 ^ 54⟩

/-- The binary64 value of the source literal `0.25` (exactly 1/4). -/
def lit025 : Frac := ⟨1, 4⟩

/-- Python `int(...)` on a non-negative float: truncation. -/
def pyIntF (q : Frac) : Nat := q.num / q.den

/-- `flight_budget = int(budget * 0.4)` — 40% for flights. -/
def flightBudget (budget : Frac) : Nat := pyIntF (fl64F (budget.mul lit04))

/-- `hotel_budget = int(budget * 0.35)` — 35% for accommodation. -/
def hotelBudget (budget : Frac) : Nat := pyIntF (fl64F (budget.mul lit035))

/-- `activity_budget = int(budget * 0.25)` — 25% for activities. -/
def activityBudget (budget : Frac) : Nat :=
  pyIntF (fl64F (budget.mul lit025))

/-- `hotel_per_night = hotel_budget // max(days - 1, 1)` (Python floor
division, which on non-negative operands is `Nat` division; `days - 1` in
`Nat` agrees with Python under the `max` with 1 for every validated day
count). -/
def hotelPerNight (budget : Frac) (days : Nat) : Nat :=
  hotelBudget budget / max (days - 1) 1

/-- The `"allocation"` object of `_analyze_budget_breakdown`, which
recomputes the same three splits and records the fixed percentages. -/
structure BudgetAllocation where
  flightsAllocated : Nat
  flightsPercentage : Nat
  accommodationAllocated : Nat
  accommodationPercentage : Nat
  activitiesAllocated : Nat
  activitiesPercentage : Nat
deriving DecidableEq

/-- `TravelADKCoordinator._analyze_budget_breakdown`, allocation part. -/
def analyzeBudgetBreakdown (totalBudget : Frac) : BudgetAllocation :=
  { flightsAllocated := pyIntF (fl64F (totalBudget.mul lit04))
    flightsPercentage := 40
    accommodationAllocated := pyIntF (fl64F (totalBudget.mul lit035))
    accommodationPercentage := 35
    activitiesAllocated := pyIntF (fl64F (totalBudget.mul lit025))
    activitiesPercentage := 25 }

/-! ## Auxiliary notions used to state the verified properties -/

/-- The maximum of the three per-agent keyword scores of a message (equal
to Python's `max(agent_scores.values())` whenever some score is
positive). -/
def maxAgentScore (message : List Char) : Nat :=
  max (agentScore .flight (toLowerStr message))
    (max (agentScore .hotel (toLowerStr message))
      (agentScore .activity (toLowerStr message)))

/-- The top-scoring agent with ties broken by the fixed priority order
flight, hotel, activity — the winner the specification's single-winner rule
describes. -/
def topAgent (message : List Char) : AgentKey :=
  if agentScore .flight (toLowerStr message) = maxAgentScore message then
    .flight
  else if agentScore .hotel (toLowerStr message) = maxAgentScore message then
    .hotel
  else .activity

/-- The five generic advice-seeking terms the specification's fallback rule
lists ("recommend", "suggest", "best", "help", "advice"); stated for
comparison with the source's `general_keywords`, which also contains
`"good"`. -/
def specAdviceTerms : List (List Char) :=
  ["recommend".data, "suggest".data, "best".data, "help".data,
    "advice".data]

/-- A successful agent dict as the ADK base agent shapes it (a non-empty
response text and a `"function_calls"` list). -/
def okResp : AgentResp :=
  { response := some "ok".data, functionCalls := some [] }

/-- An error dict as the ADK base agent returns on an internal failure. -/
def errDictResp : AgentResp := { error := some "agent failed".data }

/-- A behavior in which every invocation of every agent succeeds. -/
def behOkAll : Behavior := fun _ _ _ _ => .ok okResp

/-- A behavior in which every invocation raises. -/
def behAllExc : Behavior := fun _ _ _ _ => .exc "boom".data

/-- A behavior in which every invocation returns an error dict (the way the
ADK base agents surface failure) without raising or hanging. -/
def behAllErrDict : Behavior := fun _ _ _ _ => .ok errDictResp

/-- A behavior in which the flight agent's invocation outlasts the fan-in
deadline and the other agents answer promptly. -/
def behFlightHangs : Behavior := fun a _ _ _ =>
  match a with
  | .flight => .hang
  | _ => .ok okResp

/-- A conversation store holding one conversation whose recorded involved
agents are flight and hotel, with one counted turn. -/
def c5Store : Memory :=
  [("conv-c5".data,
    { involvedAgents := some [.flight, .hotel]
      lastUpdate := some 5
      messageCount := some 1 })]

/-! ## Helper lemmas -/

/-- A coordination round's agent set is non-empty whenever the registry is:
the fallback at the top of `_coordinate_conversation` restores the full
registry when the router selected nobody. -/
theorem involvedAgents_ne_nil (cfg : List AgentKey) (message : List Char)
    (h : cfg ≠ []) : involvedAgents cfg message ≠ [] := by
  unfold involvedAgents
  cases hd : determineAgentsNeeded cfg message with
  | nil => simpa [hd] using h
  | cons a l => simp [hd]

/-- When every selected agent's safe query completes, the fan-in collects
exactly one keyed result per agent, in order. -/
theorem collect_fanOut_mapFst (beh : Behavior) (memory : Memory)
    (message : List Char) (convId : ConvId) :
    ∀ agents : List AgentKey,
      (∀ a ∈ agents,
        (queryAgentSafely beh memory a message convId).isSome = true) →
      (collectResponses
        (fanOutResults beh memory message convId agents)).map Prod.fst
        = agents := by
  intro agents h
  induction agents with
  | nil => rfl
  | cons a as ih =>
    obtain ⟨r, hr⟩ := Option.isSome_iff_exists.mp (h a (by simp))
    simp only [fanOutResults, collectResponses, List.map_cons,
      List.filterMap_cons, hr, Option.map_some] at *
    simpa using ih (fun b hb => h b (by simp [hb]))

/-- When every selected agent's safe query completes, the fan-in deadline
does not fire. -/
theorem fanOut_any_isNone_false (beh : Behavior) (memory : Memory)
    (message : List Char) (convId : ConvId) (agents : List AgentKey)
    (h : ∀ a ∈ agents,
      (queryAgentSafely beh memory a message convId).isSome = true) :
    (fanOutResults beh memory message convId agents).any
      (fun p => p.2.isNone) = false := by
  induction agents with
  | nil => rfl
  | cons a as ih =>
    obtain ⟨r, hr⟩ := Option.isSome_iff_exists.mp (h a (by simp))
    simp only [fanOutResults, List.map_cons, List.any_cons, hr] at *
    simpa using ih (fun b hb => h b (by simp [hb]))

/-- A behavior whose invocations always return a dict makes every safe
query complete. -/
theorem queryAgentSafely_isSome (beh : Behavior) (memory : Memory)
    (a : AgentKey) (message : List Char) (convId : ConvId)
    (hbeh : ∀ k m c md, (beh k m c md).isOk = true) :
    (queryAgentSafely beh memory a message convId).isSome = true := by
  unfold queryAgentSafely
  cases hb : beh a message convId (queryCallMode memory convId a) with
  | ok r => rfl
  | exc reason => rfl
  | hang =>
    have h := hbeh a message convId (queryCallMode memory convId a)
    rw [hb] at h
    simp [Outcome.isOk] at h

/-! ## Verified properties of the claims -/

/-- C1 (amended): every multi-agent coordination round in which all
selected invocations complete within the deadline returns a coordinated
response whose result mapping has exactly one `AgentResult` per agent of
the routing decision, in order, regardless of per-agent success or failure;
rounds routed to a single agent bypass this path (see the accompanying
counterexample). -/
theorem c1_prop (beh : Behavior) (memory : Memory) (message : List Char)
    (convId : ConvId) (agents : List AgentKey) (now : Nat)
    (hnohang : ∀ a ∈ agents,
      (queryAgentSafely beh memory a message convId).isSome = true) :
    ∃ c, (multiAgentConversation beh memory message convId agents now).1
        = .coordinated c
      ∧ c.agentResponses.map Prod.fst = agents := by
  have hany := fanOut_any_isNone_false beh memory message convId agents
    hnohang
  simp only [multiAgentConversation, hany, Bool.false_eq_true, if_false]
  exact ⟨_, rfl, collect_fanOut_mapFst beh memory message convId agents
    hnohang⟩

/-- C1 witness: a concrete two-agent round with responsive agents. -/
theorem c1_witness :
    (∀ a ∈ [AgentKey.flight, AgentKey.hotel],
      (queryAgentSafely behOkAll [] a "paris".data "w1".data).isSome
        = true)
    ∧ ∃ c,
      (multiAgentConversation behOkAll [] "paris".data "w1".data
        [AgentKey.flight, AgentKey.hotel] 0).1 = .coordinated c
      ∧ c.agentResponses.map Prod.fst = [AgentKey.flight, AgentKey.hotel] :=
  ⟨by decide,
    c1_prop behOkAll [] "paris".data "w1".data
      [AgentKey.flight, AgentKey.hotel] 0 (by decide)⟩

/-- C1 counterexample: the message `"flight"` routes to exactly one agent,
and that round returns the agent's raw dict — there is no coordinated
response and no agent-name → result mapping at all, so the mapping does not
contain one entry per routed agent. -/
theorem c1_counterexample :
    involvedAgents fullConfig "flight".data = [AgentKey.flight]
    ∧ coordResponsesMap
        (coordinateConversation behOkAll fullConfig [] "flight".data
          "r1".data 0).1 = none
    ∧ (coordinateConversation behOkAll fullConfig [] "flight".data
        "r1".data 0).1 = .singleResp okResp := by
  decide

/-- C2: a concrete multi-agent round in which the flight agent's
invocation outlasts the fan-in deadline.  `as_completed` raises
`TimeoutError`, which escapes `_multi_agent_conversation`: the round
produces no result mapping (no `Failure` entry for the hanging agent, the
prompt hotel agent's collected result is discarded) and the store is not
updated — the deadline overrun becomes a whole-request error, contradicting
the claimed per-agent timeout `Failure`. -/
theorem c2_prop :
    (multiAgentConversation behFlightHangs [] "x".data "r2".data
      [AgentKey.flight, AgentKey.hotel] 0).1 = .timedOut
    ∧ coordResponsesMap
        (multiAgentConversation behFlightHangs [] "x".data "r2".data
          [AgentKey.flight, AgentKey.hotel] 0).1 = none
    ∧ (multiAgentConversation behFlightHangs [] "x".data "r2".data
        [AgentKey.flight, AgentKey.hotel] 0).2 = [] := by
  decide

/-- C3 (amended): with a non-empty registry and agents that answer without
raising or hanging (the ADK base agents convert their own failures into
error dicts), a coordination round always returns a response rather than
throwing; and for a round in which every agent failed, the quality tier is
`low` with zero successful agents, while the synthesized summary is the
generic fallback sentence — the outage is not stated (failed agents are
listed only when at least one agent succeeded). -/
theorem c3_prop (beh : Behavior) (cfg : List AgentKey) (memory : Memory)
    (message : List Char) (convId : ConvId) (now : Nat)
    (responses : List (AgentKey × AgentResp))
    (hbeh : ∀ k m c md, (beh k m c md).isOk = true)
    (hcfg : cfg ≠ [])
    (hfail : ∀ p ∈ responses, p.2.response = none) :
    (coordinateConversation beh cfg memory message convId now).1.isReturned
      = true
    ∧ (assessCoordinationQuality responses).effectiveness = .low
    ∧ (assessCoordinationQuality responses).successfulAgents = 0
    ∧ generateCoordinatorSummary responses = genericCoordSummary := by
  have hfilter : responses.filter (fun p => p.2.response.isSome) = [] := by
    rw [List.filter_eq_nil_iff]
    intro p hp
    simp [hfail p hp]
  have hsucc : responses.filter (fun p => isSuccessResp p.2) = [] := by
    rw [List.filter_eq_nil_iff]
    intro p hp
    simp [isSuccessResp, hfail p hp]
  refine ⟨?_, ?_, ?_, ?_⟩
  · rcases hi : involvedAgents cfg message with _ | ⟨a, _ | ⟨b, rest⟩⟩
    · exact absurd hi (involvedAgents_ne_nil cfg message hcfg)
    · simp only [coordinateConversation, hi]
      cases hl : memLookup memory convId with
      | some rec =>
        cases hb : beh a message convId .cont with
        | ok r => simp [CoordOutcome.isReturned]
        | exc e =>
          have h := hbeh a message convId .cont
          rw [hb] at h
          simp [Outcome.isOk] at h
        | hang =>
          have h := hbeh a message convId .cont
          rw [hb] at h
          simp [Outcome.isOk] at h
      | none =>
        cases hb : beh a message convId .start with
        | ok r => simp [CoordOutcome.isReturned]
        | exc e =>
          have h := hbeh a message convId .start
          rw [hb] at h
          simp [Outcome.isOk] at h
        | hang =>
          have h := hbeh a message convId .start
          rw [hb] at h
          simp [Outcome.isOk] at h
    · have hany := fanOut_any_isNone_false beh memory message convId
        (a :: b :: rest)
        (fun x _ => queryAgentSafely_isSome beh memory x message convId hbeh)
      simp only [coordinateConversation, hi, multiAgentConversation, hany,
        Bool.false_eq_true, if_false]
      rfl
  · rcases responses with _ | ⟨p, ps⟩
    · decide
    · simp [assessCoordinationQuality, hfilter, Frac.ble]
  · simp [assessCoordinationQuality, hfilter]
  · simp [generateCoordinatorSummary, hsucc, genericCoordSummary]

/-- C3 witness: two agents that both return error dicts. -/
theorem c3_witness :
    fullConfig ≠ []
    ∧ ((.flight, errDictResp) :: [(AgentKey.hotel, errDictResp)]).all
        (fun p => p.2.response.isNone) = true
    ∧ (coordinateConversation behAllErrDict fullConfig [] "rome".data
        "w3".data 0).1.isReturned = true
    ∧ (assessCoordinationQuality
        [(AgentKey.flight, errDictResp), (AgentKey.hotel, errDictResp)]
          ).effectiveness = .low
    ∧ (assessCoordinationQuality
        [(AgentKey.flight, errDictResp), (AgentKey.hotel, errDictResp)]
          ).successfulAgents = 0
    ∧ generateCoordinatorSummary
        [(AgentKey.flight, errDictResp), (AgentKey.hotel, errDictResp)]
        = genericCoordSummary := by
  refine ⟨by decide, by decide, ?_⟩
  have h := c3_prop behAllErrDict fullConfig [] "rome".data "w3".data 0
    [(AgentKey.flight, errDictResp), (AgentKey.hotel, errDictResp)]
    (fun _ _ _ _ => rfl) (by decide) (by decide)
  exact ⟨h.1, h.2.1, h.2.2.1, h.2.2.2⟩

/-- C3 counterexample: the message `"journey sleep"` routes to the flight
and hotel agents; when both invocations raise, the round still returns a
coordinated response with quality `low` and zero successes, but its summary
is the generic sentence, which mentions no outage, failure, error or
issue — so the summary does not state the outage as claimed. -/
theorem c3_counterexample :
    involvedAgents fullConfig "journey sleep".data
      = [AgentKey.flight, AgentKey.hotel]
    ∧ coordSummary
        (coordinateConversation behAllExc fullConfig [] "journey sleep".data
          "r3".data 0).1 = some genericCoordSummary
    ∧ coordTier
        (coordinateConversation behAllExc fullConfig [] "journey sleep".data
          "r3".data 0).1 = some .low
    ∧ coordSuccessCount
        (coordinateConversation behAllExc fullConfig [] "journey sleep".data
          "r3".data 0).1 = some 0
    ∧ containsSub (toLowerStr genericCoordSummary) "issue".data = false
    ∧ containsSub (toLowerStr genericCoordSummary) "fail".data = false
    ∧ containsSub (toLowerStr genericCoordSummary) "error".data = false
    ∧ containsSub (toLowerStr genericCoordSummary) "outage".data = false
    ∧ containsSub (toLowerStr genericCoordSummary) "unavailable".data
        = false := by
  decide

/-- C4 (amended): when no agent scores and no comprehensive keyword
appears, a message containing one of the source's six generic
advice-seeking terms ("recommend", "suggest", "best", "good", "help",
"advice") routes to the designated default agent alone (the activity agent
when configured, else the first registered agent), any other message routes
to every configured agent, and the round's agent set is never empty while
the registry is non-empty. -/
theorem c4_prop (message : List Char) (cfg : List AgentKey)
    (hcfg : cfg ≠ [])
    (hf : agentScore .flight (toLowerStr message) = 0)
    (hh : agentScore .hotel (toLowerStr message) = 0)
    (ha : agentScore .activity (toLowerStr message) = 0)
    (hcomp : anyComprehensive (toLowerStr message) = false) :
    (anyGeneral (toLowerStr message) = true →
      involvedAgents cfg message = fallbackDefault cfg)
    ∧ (anyGeneral (toLowerStr message) = false →
      involvedAgents cfg message = cfg)
    ∧ involvedAgents cfg message ≠ [] := by
  have hsc : agentScores (toLowerStr message) = [] := by
    simp [agentScores, agentOrder, hf, hh, ha]
  have hsel : scoreSelected cfg (toLowerStr message) = [] := by
    simp [scoreSelected, hsc, firstMax]
  have hdet : determineAgentsNeeded cfg message
      = if anyGeneral (toLowerStr message) then fallbackDefault cfg
        else [] := by
    simp [determineAgentsNeeded, hcomp, hsel]
  have hfb : fallbackDefault cfg ≠ [] := by
    unfold fallbackDefault
    split_ifs
    · simp
    · cases cfg with
      | nil => exact absurd rfl hcfg
      | cons c l => simp
  refine ⟨?_, ?_, ?_⟩
  · intro hg
    cases hfd : fallbackDefault cfg with
    | nil => exact absurd hfd hfb
    | cons x xs => simp [involvedAgents, hdet, hg, hfd]
  · intro hg
    simp [involvedAgents, hdet, hg]
  · cases hg : anyGeneral (toLowerStr message) with
    | true =>
      cases hfd : fallbackDefault cfg with
      | nil => exact absurd hfd hfb
      | cons x xs => simp [involvedAgents, hdet, hg, hfd]
    | false => simpa [involvedAgents, hdet, hg] using hcfg

/-- C4 witness: the message `"good"` triggers the generic-advice fallback
and routes to the default agent alone. -/
theorem c4_witness :
    fullConfig ≠ []
    ∧ anyGeneral (toLowerStr "good".data) = true
    ∧ involvedAgents fullConfig "good".data = fallbackDefault fullConfig :=
  ⟨by decide, by decide,
    (c4_prop "good".data fullConfig (by decide) (by decide) (by decide)
      (by decide) (by decide)).1 (by decide)⟩

/-- C4 counterexample: `"good"` contains none of the five advice-seeking
terms the claim lists, scores zero everywhere, and has no comprehensive
keyword, so the claim predicts that every configured agent is selected —
but the source's term list also contains `"good"`, and the round routes to
the activity agent alone. -/
theorem c4_counterexample :
    (∀ t ∈ specAdviceTerms, containsSub (toLowerStr "good".data) t = false)
    ∧ agentScore .flight (toLowerStr "good".data) = 0
    ∧ agentScore .hotel (toLowerStr "good".data) = 0
    ∧ agentScore .activity (toLowerStr "good".data) = 0
    ∧ anyComprehensive (toLowerStr "good".data) = false
    ∧ involvedAgents fullConfig "good".data = [AgentKey.activity]
    ∧ [AgentKey.activity] ≠ fullConfig := by
  decide

/-- C5 (amended): completing a multi-agent coordination round (one whose
invocations all settle) writes the round's agent list into the store —
replacing any previously stored involved-agent set rather than merging with
it — while refreshing the last-update timestamp and incrementing the turn
count (a missing count reads as zero). -/
theorem c5_prop (beh : Behavior) (memory : Memory) (message : List Char)
    (convId : ConvId) (agents : List AgentKey) (now : Nat)
    (hnohang : ∀ a ∈ agents,
      (queryAgentSafely beh memory a message convId).isSome = true) :
    storedInvolved
        (multiAgentConversation beh memory message convId agents now).2
        convId = some agents
    ∧ storedCount
        (multiAgentConversation beh memory message convId agents now).2
        convId = some ((storedCount memory convId).getD 0 + 1)
    ∧ storedLastUpdate
        (multiAgentConversation beh memory message convId agents now).2
        convId = some now := by
  have hany := fanOut_any_isNone_false beh memory message convId agents
    hnohang
  simp only [multiAgentConversation, hany, Bool.false_eq_true, if_false]
  refine ⟨?_, ?_, ?_⟩ <;>
    simp [storedInvolved, storedCount, storedLastUpdate, memLookup,
      memInsert]

/-- C5 witness: a first multi-agent round on an empty store records the
two agents, count 1 and the round's timestamp. -/
theorem c5_witness :
    (∀ a ∈ [AgentKey.flight, AgentKey.hotel],
      (queryAgentSafely behOkAll [] a "x".data "w5".data).isSome = true)
    ∧ storedInvolved
        (multiAgentConversation behOkAll [] "x".data "w5".data
          [AgentKey.flight, AgentKey.hotel] 7).2 "w5".data
        = some [AgentKey.flight, AgentKey.hotel]
    ∧ storedCount
        (multiAgentConversation behOkAll [] "x".data "w5".data
          [AgentKey.flight, AgentKey.hotel] 7).2 "w5".data
        = some ((storedCount [] "w5".data).getD 0 + 1)
    ∧ storedLastUpdate
        (multiAgentConversation behOkAll [] "x".data "w5".data
          [AgentKey.flight, AgentKey.hotel] 7).2 "w5".data = some 7 :=
  ⟨by decide,
    c5_prop behOkAll [] "x".data "w5".data
      [AgentKey.flight, AgentKey.hotel] 7 (by decide)⟩

/-- C5 counterexample: a store already associating the conversation with
flight and hotel; a round involving hotel and activity overwrites the
stored set, dropping flight — the update is a replacement, not the claimed
set union (which would retain flight). -/
theorem c5_counterexample :
    storedInvolved c5Store "conv-c5".data
      = some [AgentKey.flight, AgentKey.hotel]
    ∧ storedInvolved
        (multiAgentConversation behOkAll c5Store "x".data "conv-c5".data
          [AgentKey.hotel, AgentKey.activity] 9).2 "conv-c5".data
        = some [AgentKey.hotel, AgentKey.activity]
    ∧ AgentKey.flight ∈ [AgentKey.flight, AgentKey.hotel]
    ∧ AgentKey.flight ∉ [AgentKey.hotel, AgentKey.activity] := by
  decide

/-- C6 (amended): after a settled multi-agent round, the conversation's
stored involved-agent set is the round's agent list, so any member of that
round selected into a later multi-agent round is invoked through
`continue_conversation`; and the store now has a record for the id, so a
later single-agent round also takes the continue path.  (When the earlier
round was single-agent, only a `"primary_agent"` entry exists and a later
multi-agent round restarts the agent — see the counterexample.) -/
theorem c6_prop (beh : Behavior) (memory : Memory) (message : List Char)
    (convId : ConvId) (agents : List AgentKey) (now : Nat) (a : AgentKey)
    (hnohang : ∀ b ∈ agents,
      (queryAgentSafely beh memory b message convId).isSome = true)
    (ha : a ∈ agents) :
    queryCallMode
        (multiAgentConversation beh memory message convId agents now).2
        convId a = CallMode.cont
    ∧ memLookup
        (multiAgentConversation beh memory message convId agents now).2
        convId ≠ none := by
  have hany := fanOut_any_isNone_false beh memory message convId agents
    hnohang
  simp only [multiAgentConversation, hany, Bool.false_eq_true, if_false]
  constructor
  · simp [queryCallMode, memLookup, memInsert, ha]
  · simp [memLookup, memInsert]

/-- C6 witness: a concrete settled first round over flight and hotel makes
the flight agent continue in a later round. -/
theorem c6_witness :
    (∀ b ∈ [AgentKey.flight, AgentKey.hotel],
      (queryAgentSafely behOkAll [] b "x".data "w6".data).isSome = true)
    ∧ AgentKey.flight ∈ [AgentKey.flight, AgentKey.hotel]
    ∧ queryCallMode
        (multiAgentConversation behOkAll [] "x".data "w6".data
          [AgentKey.flight, AgentKey.hotel] 0).2 "w6".data AgentKey.flight
        = CallMode.cont
    ∧ memLookup
        (multiAgentConversation behOkAll [] "x".data "w6".data
          [AgentKey.flight, AgentKey.hotel] 0).2 "w6".data ≠ none :=
  ⟨by decide, by decide,
    (c6_prop behOkAll [] "x".data "w6".data
        [AgentKey.flight, AgentKey.hotel] 0 AgentKey.flight (by decide)
        (by decide)).1,
    (c6_prop behOkAll [] "x".data "w6".data
        [AgentKey.flight, AgentKey.hotel] 0 AgentKey.flight (by decide)
        (by decide)).2⟩

/-- C6 counterexample: round one of conversation `"conv-c6"` routes the
message `"flight"` to the flight agent alone, storing only a
`"primary_agent"` record; round two routes `"journey sleep"` to flight and
hotel, and the flight agent — although it participated in round one and is
selected again — is invoked through its start path, because the record's
involved-agent list defaults to empty. -/
theorem c6_counterexample :
    involvedAgents fullConfig "flight".data = [AgentKey.flight]
    ∧ involvedAgents fullConfig "journey sleep".data
        = [AgentKey.flight, AgentKey.hotel]
    ∧ queryCallMode
        (coordinateConversation behOkAll fullConfig [] "flight".data
          "conv-c6".data 0).2 "conv-c6".data AgentKey.flight
        = CallMode.start := by
  decide

/-- Every agent key is registered when all three agents initialize. -/
theorem mem_fullConfig (a : AgentKey) : a ∈ fullConfig := by
  cases a <;> decide

set_option maxHeartbeats 1000000 in
/-- C7: for a message with no comprehensive-intent keyword whose maximal
per-agent score is at least 3, the router selects exactly the top-scoring
agent, ties broken by the fixed priority order flight, hotel, activity
(the Python `max` keeps the earliest argmax of the table's iteration
order). -/
theorem c7_prop (message : List Char)
    (hcomp : anyComprehensive (toLowerStr message) = false)
    (hmax : 3 ≤ maxAgentScore message) :
    determineAgentsNeeded fullConfig message = [topAgent message]
    ∧ agentScore (topAgent message) (toLowerStr message)
        = maxAgentScore message := by
  have hfle : agentScore .flight (toLowerStr message)
      ≤ maxAgentScore message := le_max_left _ _
  have hhle : agentScore .hotel (toLowerStr message)
      ≤ maxAgentScore message :=
    le_trans (le_max_left _ _) (le_max_right _ _)
  have hale : agentScore .activity (toLowerStr message)
      ≤ maxAgentScore message :=
    le_trans (le_max_right _ _) (le_max_right _ _)
  have hchoice : maxAgentScore message
        = agentScore .flight (toLowerStr message)
      ∨ maxAgentScore message = agentScore .hotel (toLowerStr message)
      ∨ maxAgentScore message
        = agentScore .activity (toLowerStr message) := by
    unfold maxAgentScore
    rcases max_choice (agentScore .flight (toLowerStr message))
      (max (agentScore .hotel (toLowerStr message))
        (agentScore .activity (toLowerStr message))) with h | h
    · exact Or.inl h
    · rcases max_choice (agentScore .hotel (toLowerStr message))
        (agentScore .activity (toLowerStr message)) with h' | h'
      · exact Or.inr (Or.inl (h.trans h'))
      · exact Or.inr (Or.inr (h.trans h'))
  have htop : agentScore (topAgent message) (toLowerStr message)
      = maxAgentScore message := by
    unfold topAgent
    split_ifs with h1 h2
    · exact h1
    · exact h2
    · rcases hchoice with h | h | h
      · exact absurd h.symm h1
      · exact absurd h.symm h2
      · exact h.symm
  have hsel : scoreSelected fullConfig (toLowerStr message)
      = [topAgent message] := by
    unfold topAgent
    split_ifs with h1 h2 <;>
      by_cases hp1 : 0 < agentScore .flight (toLowerStr message) <;>
      by_cases hp2 : 0 < agentScore .hotel (toLowerStr message) <;>
      by_cases hp3 : 0 < agentScore .activity (toLowerStr message) <;>
      simp only [scoreSelected, agentScores, agentOrder, List.map_cons,
        List.map_nil, List.filter_cons, List.filter_nil,
        decide_eq_true_eq, hp1, hp2, hp3, if_true, if_false, firstMax,
        List.foldl, mem_fullConfig] <;>
      (try split_ifs) <;>
      (try dsimp only) <;>
      (try split_ifs) <;>
      (try dsimp only) <;>
      (try split_ifs) <;>
      first
        | rfl
        | omega
  have hne : (scoreSelected fullConfig (toLowerStr message)).isEmpty
      = false := by
    rw [hsel]
    rfl
  refine ⟨?_, htop⟩
  simp [determineAgentsNeeded, hcomp, hne, hsel]

/-- C7 witness: the message of the specification's single-winner example
routes to the flight agent alone. -/
theorem c7_witness :
    anyComprehensive
        (toLowerStr "I need a flight to Tokyo, flight departure info".data)
      = false
    ∧ 3 ≤ maxAgentScore
        "I need a flight to Tokyo, flight departure info".data
    ∧ determineAgentsNeeded fullConfig
        "I need a flight to Tokyo, flight departure info".data
      = [AgentKey.flight] :=
  ⟨by decide, by decide,
    ((c7_prop "I need a flight to Tokyo, flight departure info".data
      (by decide) (by decide)).1).trans (by decide)⟩

/-- C8: the budget split is a fixed, deterministic function of the inputs:
allocations use the constant factors 0.4 / 0.35 / 0.25 (recorded as
40/35/25 percent in the breakdown for every budget), budget 2000 always
yields flight 800, hotel 700, activity 500, and the per-night hotel figure
is that accommodation allocation floor-divided by `max (days - 1) 1`
nights. -/
theorem c8_prop :
    flightBudget ⟨2000, 1⟩ = 800
    ∧ hotelBudget ⟨2000, 1⟩ = 700
    ∧ activityBudget ⟨2000, 1⟩ = 500
    ∧ analyzeBudgetBreakdown ⟨2000, 1⟩ = ⟨800, 40, 700, 35, 500, 25⟩
    ∧ (∀ days : Nat,
        hotelPerNight ⟨2000, 1⟩ days = 700 / max (days - 1) 1)
    ∧ (∀ b : Frac, (analyzeBudgetBreakdown b).flightsPercentage = 40
        ∧ (analyzeBudgetBreakdown b).accommodationPercentage = 35
        ∧ (analyzeBudgetBreakdown b).activitiesPercentage = 25) := by
  refine ⟨by decide, by decide, by decide, by decide, ?_, ?_⟩
  · intro days
    have h : hotelBudget ⟨2000, 1⟩ = 700 := by decide
    simp [hotelPerNight, h]
  · intro b
    exact ⟨rfl, rfl, rfl⟩

/-- C9: routing keyword matching is substring-based on the case-folded
text: any message containing a comprehensive keyword as a substring (such
as `"travel"` inside `"traveling"`) selects every configured agent;
`"seeing"` contributes one occurrence of the activity keyword `"see"`;
`"flights"` scores 3 through the flight keyword `"flight"` without a
standalone word; occurrences are counted non-overlapping. -/
theorem c9_prop (message : List Char) (cfg : List AgentKey)
    (hcomp : anyComprehensive (toLowerStr message) = true) :
    determineAgentsNeeded cfg message = cfg
    ∧ agentScore .activity (toLowerStr "seeing".data) = 1
    ∧ agentScore .flight (toLowerStr "flights".data) = 3
    ∧ countOccs "seesee".data "see".data = 2
    ∧ containsSub (toLowerStr "I am traveling".data) "travel".data = true
    ∧ determineAgentsNeeded fullConfig "I am traveling".data
        = fullConfig := by
  refine ⟨?_, by decide, by decide, by decide, by decide, by decide⟩
  simp [determineAgentsNeeded, hcomp]

/-- C9 witness: `"I am traveling"` contains a comprehensive keyword as a
substring and routes to all configured agents. -/
theorem c9_witness :
    anyComprehensive (toLowerStr "I am traveling".data) = true
    ∧ determineAgentsNeeded fullConfig "I am traveling".data
        = fullConfig :=
  ⟨by decide, (c9_prop "I am traveling".data fullConfig (by decide)).1⟩

/-- C10: a successful response text of at most 200 characters is returned
verbatim by `_extract_key_info` — the sentence-scoring truncation applies
only beyond 200 characters — and such a text appears unmodified inside the
coordinator's overall summary blurb for its agent. -/
theorem c10_prop (text agentType : List Char) (k : AgentKey)
    (hlen : text.length ≤ 200) (hne : text ≠ []) :
    extractKeyInfo text agentType = text
    ∧ generateCoordinatorSummary [(k, { response := some text })]
        = "**".data ++ agentTitle k ++ "**: ".data ++ text := by
  have hex : ∀ t : List Char, extractKeyInfo text t = text := by
    intro t
    simp [extractKeyInfo, hlen]
  have hie : text.isEmpty = false := by
    cases text with
    | nil => exact absurd rfl hne
    | cons c l => rfl
  refine ⟨hex agentType, ?_⟩
  simp [generateCoordinatorSummary, isSuccessResp, hne, hie, joinSep, hex,
    List.filter]

/-- C10 witness: a concrete 39-character response is reproduced verbatim
in the summary. -/
theorem c10_witness :
    "Flights from 800 dollars are available.".data.length ≤ 200
    ∧ "Flights from 800 dollars are available.".data ≠ []
    ∧ extractKeyInfo "Flights from 800 dollars are available.".data
        "Flight".data = "Flights from 800 dollars are available.".data
    ∧ generateCoordinatorSummary
        [(AgentKey.flight,
          { response := some "Flights from 800 dollars are available.".data })]
        = "**".data ++ agentTitle AgentKey.flight ++ "**: ".data
          ++ "Flights from 800 dollars are available.".data :=
  ⟨by decide, by decide,
    (c10_prop "Flights from 800 dollars are available.".data
      "Flight".data AgentKey.flight (by decide) (by decide)).1,
    (c10_prop "Flights from 800 dollars are available.".data
      "Flight".data AgentKey.flight (by decide) (by decide)).2⟩

end TravelADK
